import Mathlib

/-!
Verification development for the MCP Manager gateway (`src-tauri`).

Each Rust function relevant to the checked properties is shallowly embedded
as an executable Lean definition.  Ambient effects (current time, random
nonces, network responses, the async connection attempt) are passed in as
explicit parameters, so every definition is a pure function of its inputs.
Machine integers (`u64`) are modelled as `Nat` with explicit `% 2^64`
wherever the Rust code can overflow.
-/

namespace McpManager

/-! ## JSON values (`serde_json::Value`) -/

/-- Model of `serde_json::Value`: null, booleans, numbers, strings, arrays
and objects (an object is an association list of fields). -/
inductive Json where
  | null
  | bool (b : Bool)
  | num (n : Int)
  | str (s : String)
  | arr (elems : List Json)
  | obj (fields : List (String × Json))
deriving Repr

/-- First field with the given key, as in `serde_json::Map::get`. -/
def Json.lookupField : List (String × Json) → String → Option Json
  | [], _ => none
  | (k, v) :: rest, key => if k = key then some v else Json.lookupField rest key

/-- `Value::get(key)`: field lookup, `none` on non-objects. -/
def Json.get : Json → String → Option Json
  | .obj fields, key => Json.lookupField fields key
  | _, _ => none

/-- `Value::as_str()`. -/
def Json.asStr : Json → Option String
  | .str s => some s
  | _ => none

/-! ## Error type (`src/error.rs`, `AppError`) -/

/-- The application error enum from `src/error.rs` (payloads are the
formatted message strings). -/
inductive AppError where
  | ServerNotFound (s : String)
  | AlreadyConnected (s : String)
  | ConnectionFailed (s : String)
  | Protocol (s : String)
  | Transport (s : String)
  | AuthRequired (s : String)
  | OAuth (s : String)
  | IntegrationNotFound (s : String)
  | DependencyNotFound (s : String)
deriving Repr, DecidableEq

/-! ## OAuth tokens and expiry (`src/mcp/oauth.rs`) -/

/-- `OAuthTokens` as constructed in `mcp/oauth.rs` (`exchange_code`,
`refresh_token`): access token, optional refresh token, optional
`expires_in` in seconds, and the Unix time it was obtained. -/
structure OAuthTokens where
  access_token : String
  refresh_token : Option String
  expires_in : Option Nat
  obtained_at : Nat
deriving Repr, DecidableEq

/-- `is_token_expired` from `mcp/oauth.rs`: no `expires_in` means never
expiring; otherwise expired when `now + 60 >= obtained_at + expires_in`.
The ambient clock (`SystemTime::now`) is the explicit `now` parameter. -/
def is_token_expired (now : Nat) (tokens : OAuthTokens) : Bool :=
  match tokens.expires_in with
  | none => false
  | some expires_in => now + 60 ≥ tokens.obtained_at + expires_in

/-! ## Application state (`src/state/server.rs`, `src/state/mod.rs`) -/

/-- `ServerStatus` from `state/server.rs`. -/
inductive ServerStatus where
  | Connected
  | Connecting
  | Disconnected
  | Error
deriving Repr, DecidableEq

/-- `ServerTransport` from `state/server.rs`. -/
inductive ServerTransport where
  | Stdio
  | Http
deriving Repr, DecidableEq

/-- `McpTool` from `state/server.rs`: an externally-visible tool descriptor
tagged with the owning server's id and display name. -/
structure McpTool where
  name : String
  title : Option String
  description : Option String
  input_schema : Option Json
  server_id : String
  server_name : String
deriving Repr

/-- `ServerConfig` from `state/server.rs` (fields the embedded functions
read or write; marketplace bookkeeping fields are omitted). -/
structure ServerConfig where
  id : String
  name : String
  enabled : Bool
  transport : ServerTransport
  command : Option String
  args : Option (List String)
  env : Option (List (String × String))
  url : Option String
  headers : Option (List (String × String))
  status : Option ServerStatus
  last_connected : Option String
deriving Repr

/-- `ConnectionState` from `state/mod.rs`: the cached tool descriptors of a
connected server. -/
structure ConnectionState where
  tools : List McpTool
deriving Repr

/-- `AppState` from `state/mod.rs` (fields the embedded functions touch).
`connections` and the maps below are association lists keyed by server id. -/
structure AppState where
  servers : List ServerConfig
  connections : List (String × ConnectionState)
  tool_discovery_enabled : Bool
deriving Repr

/-- Association-list lookup, the model of `HashMap::get`. -/
def alistGet {α : Type} : List (String × α) → String → Option α
  | [], _ => none
  | (k, v) :: rest, key => if k = key then some v else alistGet rest key

/-- Association-list insert/replace, the model of `HashMap::insert`. -/
def alistInsert {α : Type} : List (String × α) → String → α → List (String × α)
  | [], key, v => [(key, v)]
  | (k, w) :: rest, key, v =>
    if k = key then (k, v) :: rest else (k, w) :: alistInsert rest key v

/-- Association-list removal, the model of `HashMap::remove`. -/
def alistRemove {α : Type} : List (String × α) → String → List (String × α)
  | [], _ => []
  | (k, w) :: rest, key => if k = key then rest else (k, w) :: alistRemove rest key

/-! ## Live connection registry (`src/mcp/client.rs`, `McpConnections`) -/

/-- Result from calling a tool (`CallToolResult` in `mcp/client.rs`):
a content payload plus an optional protocol-level error flag. -/
structure CallToolResult where
  content : Json
  is_error : Option Bool
deriving Repr

/-- `CallToolResult` serialization (`serde_json::to_value`): `content` plus
`isError` when present.  In the model serialization never fails. -/
def CallToolResult.toJson (r : CallToolResult) : Json :=
  match r.is_error with
  | some b => .obj [("content", r.content), ("isError", .bool b)]
  | none => .obj [("content", r.content)]

/-- Modelled from the spec: `mcp/types.rs` is not among the sources.
`McpToolDef` is a tool as discovered from a backend by `tools/list`
(name, optional title/description, optional input schema), per §3
ToolDescriptor and its uses in `mcp/client.rs` and
`commands/connections.rs`. -/
structure McpToolDef where
  name : String
  title : Option String
  description : Option String
  input_schema : Option Json

/-- A live `McpClient` as its callers see it: the discovered tool set and
the observable behavior of `call_tool`, modelled as a function from tool
name and arguments to the outcome the backend produces. -/
structure McpClient where
  tools : List McpToolDef
  callTool : String → Json → Except AppError CallToolResult

/-- `McpConnections` (`mcp/client.rs`): live clients keyed by server id.
This is the Connection Registry, separate from `AppState.connections`. -/
def Registry : Type := List (String × McpClient)

/-! ## Gateway handlers (`src/mcp/proxy.rs`, `src/mcp/discovery.rs`) -/

/-- `make_error_response` from `mcp/proxy.rs`: a JSON-RPC error envelope. -/
def make_error_response (id : Option Json) (code : Int) (message : String) : Json :=
  .obj [("jsonrpc", .str "2.0"),
        ("id", id.getD .null),
        ("error", .obj [("code", .num code), ("message", .str message)])]

/-- The HTTP answer a gateway handler produces.  `originRejected` is
`validate_origin`'s error reply; `accepted` is HTTP 202 with an EMPTY body
(optionally echoing the session header); `ok` is HTTP 200 carrying a
JSON-RPC body (optionally event-stream encoded, per `mcp_response`). -/
inductive GatewayResponse where
  | originRejected
  | accepted (session : Option String)
  | ok (body : Json) (session : Option String) (sse : Bool)
deriving Repr

/-- An inbound gateway POST as `handle_mcp_post` receives it: the verdict of
`validate_origin` on its headers (Modelled from the spec: `http_common.rs`
is not among the sources; cross-origin requests from non-local callers are
rejected — the Bool is that check's verdict), the `{server_id}` path
segment, the `client` query parameter, whether the Accept header admits an
event stream, the `mcp-session-id` header, and the JSON body. -/
structure ProxyRequest where
  originValid : Bool
  serverId : String
  clientQuery : Option String
  acceptsSse : Bool
  sessionHeader : Option String
  body : Json

/-- Modelled from the spec: `negotiate_version` lives in the missing
`http_common.rs`; it negotiates a protocol version from the caller's
requested version against a small supported set, falling back to a default. -/
def negotiate_version (requested : String) : String :=
  if requested = "2025-06-18" ∨ requested = "2025-03-26" ∨ requested = "2024-11-05"
  then requested else "2025-03-26"

/-- The `initialize` result built inline in `handle_mcp_post`. -/
def initialize_response (id : Option Json) (negotiated : String)
    (server_name : String) : Json :=
  .obj [("jsonrpc", .str "2.0"),
        ("id", id.getD .null),
        ("result", .obj
          [("protocolVersion", .str negotiated),
           ("capabilities", .obj [("tools", .obj [("listChanged", .bool true)])]),
           ("serverInfo", .obj
             [("name", .str ("MCP Manager — " ++ server_name)),
              ("version", .str "CARGO_PKG_VERSION")])])]

/-- `collect_server_tools` from `mcp/proxy.rs`: tools cached for this
server id, with their original names, rendered as JSON entries. -/
def collect_server_tools (st : AppState) (server_id : String) : List Json :=
  match alistGet st.connections server_id with
  | none => []
  | some conn_state =>
    conn_state.tools.map (fun tool =>
      let base := [("name", Json.str tool.name),
                   ("inputSchema", (tool.input_schema.getD .null))]
      let withDesc := match tool.description with
        | some d => base ++ [("description", Json.str d)]
        | none => base
      let withTitle := match tool.title with
        | some t => withDesc ++ [("title", Json.str t)]
        | none => withDesc
      Json.obj withTitle)

/-- `handle_tools_list` from `mcp/proxy.rs`. -/
def handle_tools_list (id : Option Json) (server_id : String) (st : AppState) : Json :=
  .obj [("jsonrpc", .str "2.0"),
        ("id", id.getD .null),
        ("result", .obj [("tools", .arr (collect_server_tools st server_id))])]

/-- `handle_tools_call` from `mcp/proxy.rs`.  Returns the JSON-RPC response
together with the instrumentation flag "a backend tool invocation was
performed" (true exactly on the paths that reach `client.call_tool`, which
are also the paths that record a `CallStatEntry`). -/
def handle_tools_call (id : Option Json) (params : Option Json)
    (server_id server_name : String) (reg : Registry) : Json × Bool :=
  match params with
  | none => (make_error_response id (-32602) "Missing params for tools/call", false)
  | some p =>
    match (p.get "name").bind Json.asStr with
    | none => (make_error_response id (-32602) "Missing tool name in params", false)
    | some tool_name =>
      let arguments := (p.get "arguments").getD (.obj [])
      match alistGet reg server_id with
      | none =>
        (make_error_response id (-32602)
          ("Server \x27" ++ server_name ++ "\x27 is not connected"), false)
      | some client =>
        match client.callTool tool_name arguments with
        | .ok result =>
          (.obj [("jsonrpc", .str "2.0"),
                 ("id", id.getD .null),
                 ("result", result.toJson)], true)
        | .error e =>
          (make_error_response id (-32603)
            ("Tool call failed: " ++ reprStr e), true)

/-- `handle_mcp_post` from `mcp/proxy.rs`: the per-server JSON-RPC handler.
`fresh_session` stands for the random `new_session_id()` minted in the
`initialize` branch.  The Bool is the tool-invocation flag of
`handle_tools_call` (false on every other path: no tool is invoked and no
statistics entry is recorded). -/
def handle_mcp_post (st : AppState) (reg : Registry) (fresh_session : String)
    (req : ProxyRequest) : GatewayResponse × Bool :=
  if !req.originValid then (.originRejected, false)
  else
    let method := ((req.body.get "method").bind Json.asStr).getD ""
    let id := req.body.get "id"
    let params := req.body.get "params"
    let use_sse := req.acceptsSse
    let req_session := req.sessionHeader
    if id.isNone then (.accepted req_session, false)
    else
      match (st.servers.find? (fun srv => srv.id = req.serverId)).map (·.name) with
      | none =>
        (.ok (make_error_response id (-32602)
            ("No server found with ID: " ++ req.serverId)) req_session use_sse, false)
      | some server_name =>
        if method = "initialize" then
          let client_version :=
            ((params.bind (·.get "protocolVersion")).bind Json.asStr).getD ""
          let negotiated := negotiate_version client_version
          (.ok (initialize_response id negotiated server_name)
            (some fresh_session) use_sse, false)
        else if method = "tools/list" then
          (.ok (handle_tools_list id req.serverId st) req_session use_sse, false)
        else if method = "tools/call" then
          let (resp, invoked) :=
            handle_tools_call id params req.serverId server_name reg
          (.ok resp req_session use_sse, invoked)
        else
          (.ok (make_error_response id (-32601)
            ("Method not found: " ++ method)) req_session use_sse, false)

/-! ## Discovery endpoint (`src/mcp/discovery.rs`) -/

/-- Contiguous occurrence of one character list inside another. -/
def charsInfixOf (pat : List Char) : List Char → Bool
  | [] => pat.isEmpty
  | c :: rest => pat.isPrefixOf (c :: rest) || charsInfixOf pat rest

/-- Substring test, the model of Rust `str::contains`: the pattern's
character sequence occurs contiguously in the string's. -/
def containsSubstr (s pat : String) : Bool :=
  charsInfixOf pat.data s.data

/-- Rust `str::split_whitespace`: whitespace-separated nonempty words. -/
def splitWhitespace (s : String) : List String :=
  (s.split Char.isWhitespace).filter (fun w => w ≠ "")

/-- Compact JSON serializer, the model of `serde_json::to_string_pretty`
(whitespace and string escaping are immaterial to every claim). -/
def Json.render : Json → String
  | .null => "null"
  | .bool true => "true"
  | .bool false => "false"
  | .num n => toString n
  | .str s => "\"" ++ s ++ "\""
  | .arr elems => "[" ++
      String.intercalate "," (elems.attach.map (fun e => Json.render e.1)) ++ "]"
  | .obj fields => "\x7b" ++
      String.intercalate ","
        (fields.attach.map
          (fun f => "\"" ++ f.1.1 ++ "\":" ++ Json.render f.1.2)) ++ "\x7d"
decreasing_by
  · have := List.sizeOf_lt_of_mem e.2
    simp at *
    omega
  · have h1 := List.sizeOf_lt_of_mem f.2
    have h2 : sizeOf (f.1).2 < sizeOf f.1 := by
      obtain ⟨a, b⟩ := f.1
      simp
      try omega
    simp at *
    omega

/-- `summarize_params` from `mcp/discovery.rs`: a human-readable parameter
summary derived from an inputSchema. -/
def summarize_params (schema : Option Json) : String :=
  match schema with
  | none => ""
  | some s =>
    match s.get "properties" with
    | some (.obj props) =>
      let required : List String :=
        match s.get "required" with
        | some (.arr reqs) => reqs.filterMap Json.asStr
        | _ => []
      let parts := props.map (fun np =>
        let typ := ((np.2.get "type").bind Json.asStr).getD "any"
        if required.contains np.1
        then np.1 ++ " (" ++ typ ++ ", required)"
        else np.1 ++ " (" ++ typ ++ ")")
      String.intercalate ", " parts
    | _ => ""

/-- One match entry built by `handle_discover_tools`. -/
def discover_tool_entry (srv_id srv_name : String) (tool : McpTool) : Json :=
  let base := [("server_id", Json.str srv_id),
               ("server_name", Json.str srv_name),
               ("name", Json.str tool.name),
               ("parameters", Json.str (summarize_params tool.input_schema)),
               ("inputSchema", tool.input_schema.getD .null)]
  let withDesc := match tool.description with
    | some d => base ++ [("description", Json.str d)]
    | none => base
  match tool.title with
  | some t => Json.obj (withDesc ++ [("title", Json.str t)])
  | none => Json.obj withDesc

/-- Inner loop of `handle_discover_tools`: scan one server's tools,
appending matches, stopping once 20 matches are collected. -/
def discover_scan_tools (srv_id srv_name : String) (terms : List String) :
    List McpTool → List Json → List Json
  | [], acc => acc
  | tool :: rest, acc =>
    if acc.length ≥ 20 then acc
    else
      let haystack := tool.name.toLower ++ " " ++
        ((tool.description.getD "").toLower)
      if terms.all (fun term => containsSubstr haystack term) then
        discover_scan_tools srv_id srv_name terms rest
          (acc ++ [discover_tool_entry srv_id srv_name tool])
      else
        discover_scan_tools srv_id srv_name terms rest acc

/-- Outer loop of `handle_discover_tools`: scan connected servers in
order, stopping once 20 matches are collected. -/
def discover_scan_servers (st : AppState) (terms : List String) :
    List ServerConfig → List Json → List Json
  | [], acc => acc
  | srv :: rest, acc =>
    if acc.length ≥ 20 then acc
    else if srv.status ≠ some ServerStatus.Connected then
      discover_scan_servers st terms rest acc
    else
      match alistGet st.connections srv.id with
      | none => discover_scan_servers st terms rest acc
      | some conn =>
        discover_scan_servers st terms rest
          (discover_scan_tools srv.id srv.name terms conn.tools acc)

/-- `handle_discover_tools` from `mcp/discovery.rs`: free-text AND-of-terms
search over every connected backend's tool names and descriptions. -/
def handle_discover_tools (id : Option Json) (arguments : Json)
    (st : AppState) : Json :=
  let query := ((arguments.get "query").bind Json.asStr).getD ""
  if query = "" then
    make_error_response id (-32602) "Missing required argument: query"
  else
    let terms := splitWhitespace query.toLower
    let found := discover_scan_servers st terms st.servers []
    let result_text :=
      if found.isEmpty then
        "No tools found matching \x27" ++ query ++
          "\x27. Try broader terms or use list_servers to see available servers."
      else
        Json.render (.arr found)
    .obj [("jsonrpc", .str "2.0"),
          ("id", id.getD .null),
          ("result", .obj [("content", .arr
            [.obj [("type", .str "text"), ("text", .str result_text)]])])]

/-- `handle_list_servers` from `mcp/discovery.rs`. -/
def handle_list_servers (id : Option Json) (st : AppState) : Json :=
  let servers := (st.servers.filter
      (fun srv => srv.status = some ServerStatus.Connected)).map (fun srv =>
    let tool_names : List String :=
      match alistGet st.connections srv.id with
      | some c => c.tools.map (·.name)
      | none => []
    Json.obj [("server_id", .str srv.id),
              ("server_name", .str srv.name),
              ("tool_count", .num tool_names.length),
              ("tools", .arr (tool_names.map Json.str))])
  let result_text :=
    if servers.isEmpty then "No servers are currently connected."
    else Json.render (.arr servers)
  .obj [("jsonrpc", .str "2.0"),
        ("id", id.getD .null),
        ("result", .obj [("content", .arr
          [.obj [("type", .str "text"), ("text", .str result_text)]])])]

/-- `lookup_tool_schema` from `mcp/discovery.rs`. -/
def lookup_tool_schema (st : AppState) (server_id tool_name : String) :
    Option Json :=
  match alistGet st.connections server_id with
  | none => none
  | some conn =>
    match conn.tools.find? (fun t => t.name = tool_name) with
    | some tool => tool.input_schema
    | none => none

/-- `tool_error_with_schema` from `mcp/discovery.rs`: an error result
enriched with the target tool's input schema. -/
def tool_error_with_schema (id : Option Json) (error_text : String)
    (st : AppState) (server_id tool_name : String) : Json :=
  let hint := match lookup_tool_schema st server_id tool_name with
    | some s => "\n\nExpected inputSchema for \x27" ++ tool_name ++ "\x27:\n" ++
        Json.render s
    | none => ""
  .obj [("jsonrpc", .str "2.0"),
        ("id", id.getD .null),
        ("result", .obj
          [("content", .arr [.obj [("type", .str "text"),
             ("text", .str (error_text ++ hint))]]),
           ("isError", .bool true)])]

/-- `handle_call_tool` from `mcp/discovery.rs`: forward to a named
backend's named tool.  The Bool is the tool-invocation flag. -/
def discovery_handle_call_tool (id : Option Json) (arguments : Json)
    (st : AppState) (reg : Registry) : Json × Bool :=
  match (arguments.get "server_id").bind Json.asStr with
  | none => (make_error_response id (-32602) "Missing required argument: server_id", false)
  | some server_id =>
    match (arguments.get "tool_name").bind Json.asStr with
    | none => (make_error_response id (-32602) "Missing required argument: tool_name", false)
    | some tool_name =>
      let tool_arguments := (arguments.get "arguments").getD (.obj [])
      match (st.servers.find? (fun srv => srv.id = server_id)).map (·.name) with
      | none =>
        (make_error_response id (-32602)
          ("No server found with ID: " ++ server_id), false)
      | some server_name =>
        match alistGet reg server_id with
        | none =>
          (make_error_response id (-32602)
            ("Server \x27" ++ server_name ++ "\x27 is not connected"), false)
        | some client =>
          match client.callTool tool_name tool_arguments with
          | .ok result =>
            if result.is_error.getD false then
              let error_text :=
                match result.toJson.get "content" with
                | some (.arr (item :: _)) =>
                  ((item.get "text").bind Json.asStr).getD "Tool returned an error"
                | _ => "Tool returned an error"
              (tool_error_with_schema id error_text st server_id tool_name, true)
            else
              (.obj [("jsonrpc", .str "2.0"),
                     ("id", id.getD .null),
                     ("result", result.toJson)], true)
          | .error e =>
            (tool_error_with_schema id ("Tool call failed: " ++ reprStr e)
              st server_id tool_name, true)

/-- `handle_tools_call` from `mcp/discovery.rs`: dispatch over the three
synthetic discovery tools. -/
def discovery_handle_tools_call (id : Option Json) (params : Option Json)
    (st : AppState) (reg : Registry) : Json × Bool :=
  match params with
  | none => (make_error_response id (-32602) "Missing params for tools/call", false)
  | some p =>
    match (p.get "name").bind Json.asStr with
    | none => (make_error_response id (-32602) "Missing tool name in params", false)
    | some tool_name =>
      let arguments := (p.get "arguments").getD (.obj [])
      if tool_name = "discover_tools" then
        (handle_discover_tools id arguments st, false)
      else if tool_name = "list_servers" then
        (handle_list_servers id st, false)
      else if tool_name = "call_tool" then
        discovery_handle_call_tool id arguments st reg
      else
        (make_error_response id (-32602)
          ("Unknown discovery tool: " ++ tool_name ++
            ". Available: discover_tools, call_tool, list_servers"), false)

/-- `handle_initialize` from `mcp/discovery.rs`. -/
def discovery_init_response (id : Option Json) : Json :=
  .obj [("jsonrpc", .str "2.0"),
        ("id", id.getD .null),
        ("result", .obj
          [("protocolVersion", .str "2025-03-26"),
           ("capabilities", .obj [("tools", .obj [("listChanged", .bool false)])]),
           ("serverInfo", .obj
             [("name", .str "MCP Manager — Tool Discovery"),
              ("version", .str "CARGO_PKG_VERSION")])])]

/-- `handle_tools_list` from `mcp/discovery.rs`: the three synthetic
discovery tools (schemas as in the source; the long natural-language
description strings are abbreviated, they are opaque data). -/
def discovery_handle_tools_list (id : Option Json) : Json :=
  let tools : List Json :=
    [.obj [("name", .str "discover_tools"),
           ("description", .str "Search for available tools across all connected MCP servers."),
           ("inputSchema", .obj
             [("type", .str "object"),
              ("properties", .obj
                [("query", .obj [("type", .str "string"),
                   ("description", .str "Search query — matches against tool names and descriptions.")])]),
              ("required", .arr [.str "query"])])],
     .obj [("name", .str "call_tool"),
           ("description", .str "Call a tool on a specific MCP server."),
           ("inputSchema", .obj
             [("type", .str "object"),
              ("properties", .obj
                [("server_id", .obj [("type", .str "string"),
                   ("description", .str "The server ID that hosts the tool.")]),
                 ("tool_name", .obj [("type", .str "string"),
                   ("description", .str "The name of the tool to call.")]),
                 ("arguments", .obj [("type", .str "object"),
                   ("description", .str "Arguments to pass to the tool, matching its inputSchema.")])]),
              ("required", .arr [.str "server_id", .str "tool_name"])])],
     .obj [("name", .str "list_servers"),
           ("description", .str "List all connected MCP servers and their available tool names."),
           ("inputSchema", .obj
             [("type", .str "object"),
              ("properties", .obj []),
              ("required", .arr [])])]]
  .obj [("jsonrpc", .str "2.0"),
        ("id", id.getD .null),
        ("result", .obj [("tools", .arr tools)])]

/-- `handle_discovery_post` from `mcp/discovery.rs`.  Faithfully to the
source, the discovery-enabled check happens BEFORE the "no id → 202" check,
and no origin validation is performed on this path.  Inputs are the
`client` query parameter and the JSON body; the Bool is the tool-invocation
flag. -/
def handle_discovery_post (st : AppState) (reg : Registry)
    (_clientQuery : Option String) (body : Json) : GatewayResponse × Bool :=
  if !st.tool_discovery_enabled then
    (.ok (make_error_response (body.get "id") (-32001)
      "Tool discovery mode is not enabled") none false, false)
  else
    let method := ((body.get "method").bind Json.asStr).getD ""
    let id := body.get "id"
    let params := body.get "params"
    if id.isNone then (.accepted none, false)
    else if method = "initialize" then
      (.ok (discovery_init_response id) none false, false)
    else if method = "tools/list" then
      (.ok (discovery_handle_tools_list id) none false, false)
    else if method = "tools/call" then
      let (resp, invoked) := discovery_handle_tools_call id params st reg
      (.ok resp none false, invoked)
    else
      (.ok (make_error_response id (-32601) ("Method not found: " ++ method))
        none false, false)

/-! ## Tool-list change notification (`src/mcp/proxy.rs`) -/

/-- `hash_tool_names` from `mcp/proxy.rs`: collect the tool names, sort
them, and hash the sorted list.  `std::collections::hash_map::DefaultHasher`
is an opaque deterministic function of the sorted name list; it is the
explicit parameter `hasher` (the claims do not depend on which function it
is).  `Vec::sort` is modelled by insertion sort, an equally stable
ascending sort. -/
def hash_tool_names (hasher : List String → Nat) (tools : List McpTool) : Nat :=
  hasher (List.insertionSort (· ≤ ·) (tools.map (·.name)))

/-- The gateway's notification state: `ToolListHashes` (hash of the last
broadcast tool-name list per server id) plus the log of server ids sent on
the `NotifySender` broadcast channel. -/
structure NotifyState where
  hashes : List (String × Nat)
  notified : List String
deriving Repr

/-- `notify_if_tools_changed` from `mcp/proxy.rs`: recompute the hash; if
it equals the previously stored hash for this server id, do nothing;
otherwise store it and broadcast the server id. -/
def notify_if_tools_changed (hasher : List String → Nat) (st : NotifyState)
    (server_id : String) (new_tools : List McpTool) : NotifyState :=
  let new_hash := hash_tool_names hasher new_tools
  let old_hash := alistGet st.hashes server_id
  if old_hash = some new_hash then st
  else { hashes := alistInsert st.hashes server_id new_hash,
         notified := st.notified ++ [server_id] }

/-! ## Streamable HTTP response decoding (`src/mcp/http_transport.rs`) -/

/-- Rust `str::strip_prefix`. -/
def stripPfx (s p : String) : Option String :=
  if p.isPrefixOf s then some (s.drop p.length) else none

/-- Rust `str::lines`: split on newlines, dropping a final empty segment
(the final line ending is optional) and a carriage return before each
newline. -/
def rustLines (s : String) : List String :=
  let parts := (s.splitOn "\n").map
    (fun line => if line.endsWith "\r" then line.dropRight 1 else line)
  match parts.getLast? with
  | some "" => parts.dropLast
  | _ => parts

/-- The line scan inside `extract_json_from_sse`: track the current event
name (set by `event:` lines, initially empty) and collect the trimmed
payload of every `data:` line whose current event name is empty or
"message". -/
def extract_scan (lines : List String) (current_event : String)
    (acc : List String) : List String :=
  match lines with
  | [] => acc
  | line :: rest =>
    match stripPfx line "event:" with
    | some et => extract_scan rest et.trim acc
    | none =>
      match stripPfx line "data:" with
      | some d =>
        if current_event = "" ∨ current_event = "message" then
          extract_scan rest current_event (acc ++ [d.trim])
        else extract_scan rest current_event acc
      | none => extract_scan rest current_event acc

/-- `extract_json_from_sse` from `mcp/http_transport.rs`: the last
collected payload, or a transport error when none exists. -/
def extract_json_from_sse (body : String) : Except AppError String :=
  let json_parts := extract_scan (rustLines body) "" []
  match json_parts.getLast? with
  | none => .error (.Transport "No JSON data found in SSE response")
  | some last => .ok last

/-- `send_request` (streamable mode) after a successful status: the
response text is decoded through `extract_json_from_sse` exactly when the
content type indicates an event stream, else taken verbatim. -/
def streamable_body_to_json (content_type response_text : String) :
    Except AppError String :=
  if containsSubstr content_type "text/event-stream" then
    extract_json_from_sse response_text
  else .ok response_text

/-- The claim's own reading of `extract_json_from_sse`, stated from the
spec sentence for comparison: label every `data:` payload with the event
name in force at that line (the most recent `event:` line, initially
unnamed), keep only the payloads of unnamed/"message" events, and take the
last one. -/
def sse_labeled_payloads (lines : List String) (current_event : String) :
    List (String × String) :=
  match lines with
  | [] => []
  | line :: rest =>
    match stripPfx line "event:" with
    | some et => sse_labeled_payloads rest et.trim
    | none =>
      match stripPfx line "data:" with
      | some d => (current_event, d.trim) :: sse_labeled_payloads rest current_event
      | none => sse_labeled_payloads rest current_event

/-- Spec-side counterpart of `extract_json_from_sse` (see the refinement
theorem for claim C9). -/
def last_message_payload_spec (body : String) : Option String :=
  (((sse_labeled_payloads (rustLines body) "").filter
      (fun lp => lp.1 = "" ∨ lp.1 = "message")).map (·.2)).getLast?

/-! ## HTTP status handling (`src/mcp/http_transport.rs`) — claim C3 -/

/-- The observable outcome of one `reqwest` send: the send itself failed,
or a response with a status code arrived. -/
inductive HttpSendOutcome where
  | sendFailed (msg : String)
  | response (status : Nat)
deriving Repr, DecidableEq

/-- `reqwest::StatusCode::is_success`: 2xx. -/
def status_is_success (status : Nat) : Bool := 200 ≤ status ∧ status < 300

/-- Status handling of the initial GET in `connect_legacy_sse`
(`mcp/http_transport.rs` lines 103–117): 401 is `AuthRequired`, any other
non-2xx is a transport error, 2xx proceeds. -/
def connect_legacy_sse_status (url : String) (o : HttpSendOutcome) :
    Except AppError Unit :=
  match o with
  | .sendFailed e => .error (.Transport ("SSE GET request failed: " ++ e))
  | .response status =>
    if status = 401 then .error (.AuthRequired url)
    else if !status_is_success status then
      .error (.Transport ("SSE endpoint returned status " ++ toString status))
    else .ok ()

/-- Status handling of the POST in `send_request_legacy_sse`
(`mcp/http_transport.rs` lines 367–389): 401 is `AuthRequired` (after
removing the pending entry), any other non-2xx a transport error, 2xx
proceeds to await the SSE response. -/
def legacy_post_status (post_url method : String) (o : HttpSendOutcome) :
    Except AppError Unit :=
  match o with
  | .sendFailed e => .error (.Transport ("HTTP request failed: " ++ e))
  | .response status =>
    if status = 401 then .error (.AuthRequired post_url)
    else if !status_is_success status then
      .error (.Transport ("HTTP request for " ++ method ++
        " returned status " ++ toString status))
    else .ok ()

/-- `send_notification` from `mcp/http_transport.rs` (lines 413–478),
reduced to its observable outcome: a failed send is a transport error, but
once ANY response arrives the function returns `Ok ()` regardless of the
status — a non-2xx status (401 included) is only logged as a warning.  The
Bool records whether that warning was logged. -/
def send_notification_outcome (o : HttpSendOutcome) :
    (Except AppError Unit) × Bool :=
  match o with
  | .sendFailed e => (.error (.Transport ("HTTP notification failed: " ++ e)), false)
  | .response status => (.ok (), !status_is_success status)

/-! ## Legacy SSE pending-request table (`src/mcp/http_transport.rs`) — claim C2

The table (`PendingMap`) is driven by four kinds of steps, each a lock-held
critical section in the source:
`register` (`send_request_legacy_sse`: `pending.insert` before the POST),
`response` (`dispatch_sse_responses`: a decoded "message" event carrying a
JSON-RPC id — `remove` then complete the one-shot sender),
`timeout` (`send_request_legacy_sse`: the 60 s timeout branch removes the
entry and fails the caller),
`close` (the background reader's cleanup: drain every entry and fail it
with the stream-closed error).
"Completed"/"failed" below means the corresponding one-shot sender was
resolved that way. -/

inductive PendingOp where
  | register (id : String)
  | response (id : String)
  | timeout (id : String)
  | close
deriving Repr, DecidableEq

/-- The pending table key set plus the log of resolutions. -/
structure PendingState where
  pending : List String
  completed : List String
  failedTimeout : List String
  failedClosed : List String
deriving Repr, DecidableEq

def initialPending : PendingState := ⟨[], [], [], []⟩

/-- One table transition (see the claim C2 section comment).  A `register`
for a key already present replaces the sender but leaves the key set
unchanged; a `response` or `timeout` for an absent key is ignored. -/
def pendingStep (s : PendingState) : PendingOp → PendingState
  | .register id =>
    if id ∈ s.pending then s else { s with pending := id :: s.pending }
  | .response id =>
    if id ∈ s.pending then
      { s with pending := s.pending.erase id,
               completed := s.completed ++ [id] }
    else s
  | .timeout id =>
    if id ∈ s.pending then
      { s with pending := s.pending.erase id,
               failedTimeout := s.failedTimeout ++ [id] }
    else s
  | .close =>
    { s with pending := [], failedClosed := s.failedClosed ++ s.pending }

def runPending (trace : List PendingOp) : PendingState :=
  trace.foldl pendingStep initialPending

/-- Total number of resolutions (completion or failure) recorded for an id. -/
def resolutions (s : PendingState) (id : String) : Nat :=
  s.completed.count id + s.failedTimeout.count id + s.failedClosed.count id

/-- The request/response correlation timeout of the legacy SSE transport
(`mcp/http_transport.rs` line 392). -/
def legacy_sse_request_timeout_secs : Nat := 60

/-- Live table entries plus recorded resolutions for an id: the quantity
conserved (or grown by one per registration) along any trace. -/
def countAll (s : PendingState) (id : String) : Nat :=
  s.pending.count id + resolutions s id

/-! ## Request id allocation (`src/mcp/transport.rs`, `src/mcp/http_transport.rs`) — claim C10

Both transports allocate ids from `AtomicU64::new(1)` via
`fetch_add(1, SeqCst)` and insert the id into their pending table before
sending; the stdio table is keyed by the `u64` itself, the HTTP table by
its (injective) decimal string. -/

def U64_MOD : Nat := 2 ^ 64

/-- The id returned by the k-th `fetch_add` (0-based) on a counter that
started at 1: `1 + k`, wrapping as a `u64` does. -/
def assigned_id (k : Nat) : Nat := (1 + k) % U64_MOD

structure IdAllocState where
  sends : Nat
  pendingKeys : List Nat
deriving Repr, DecidableEq

inductive IdOp where
  | send
  | resolve (id : Nat)
deriving Repr, DecidableEq

/-- One step of a transport's lifetime: a `send_request` (allocate the next
id and insert it into the pending table) or a resolution (response,
timeout or shutdown removes a key). -/
def idStep (s : IdAllocState) : IdOp → IdAllocState
  | .send => { sends := s.sends + 1,
               pendingKeys := assigned_id s.sends :: s.pendingKeys }
  | .resolve id => { s with pendingKeys := s.pendingKeys.erase id }

def runIdOps (trace : List IdOp) : IdAllocState :=
  trace.foldl idStep ⟨0, []⟩

/-! ## OAuth store (`src/state/oauth.rs` via its uses) -/

/-- Modelled from the spec: `state/oauth.rs` is not among the sources.
RFC 8414 authorization-server metadata, fields per §4.5 and their uses in
`mcp/oauth.rs`. -/
structure AuthServerMetadata where
  issuer : String
  authorization_endpoint : String
  token_endpoint : String
  registration_endpoint : Option String
  scopes_supported : List String
deriving Repr, DecidableEq

/-- Modelled from the spec: `state/oauth.rs` is not among the sources.
Per-backend OAuth record (§3 OAuthRecord): discovered metadata, client
credentials, current token pair; as constructed in `commands/oauth.rs`. -/
structure OAuthState where
  auth_server_metadata : AuthServerMetadata
  client_id : Option String
  client_secret : Option String
  tokens : Option OAuthTokens
deriving Repr, DecidableEq

/-- The OAuth store keyed by server id (`SharedOAuthStore`). -/
def OAuthStore : Type := List (String × OAuthState)

/-! ## Token refresh and resolution (`src/mcp/oauth.rs`, `src/commands/connections.rs`) -/

/-- `try_refresh_token` from `mcp/oauth.rs` (lines 381–425).  The network
exchange `refresh_token(...)` is the oracle `refreshResult`.  Returns the
new access token and the updated store. -/
def try_refresh_token (store : OAuthStore) (server_id : String)
    (refreshResult : Except AppError OAuthTokens) :
    (Except AppError String) × OAuthStore :=
  match alistGet store server_id with
  | none => (.error (.OAuth "No OAuth state for server"), store)
  | some oauth_state =>
    match oauth_state.tokens with
    | none => (.error (.OAuth "No tokens stored"), store)
    | some tokens =>
      match tokens.refresh_token with
      | none => (.error (.OAuth "No refresh token available"), store)
      | some _ =>
        match refreshResult with
        | .error e => (.error e, store)
        | .ok new_tokens =>
          (.ok new_tokens.access_token,
           alistInsert store server_id { oauth_state with tokens := some new_tokens })

/-- `resolve_access_token` from `commands/connections.rs` (lines 311–332):
use the stored token if unexpired, otherwise refresh once when a refresh
token exists (failure is non-fatal: proceed without a token). -/
def resolve_access_token (now : Nat) (store : OAuthStore) (id : String)
    (refreshResult : Except AppError OAuthTokens) :
    Option String × OAuthStore :=
  match alistGet store id with
  | none => (none, store)
  | some oauth_state =>
    match oauth_state.tokens with
    | none => (none, store)
    | some tokens =>
      if !is_token_expired now tokens then (some tokens.access_token, store)
      else if tokens.refresh_token.isSome then
        match try_refresh_token store id refreshResult with
        | (.ok new_token, store2) => (some new_token, store2)
        | (.error _, store2) => (none, store2)
      else (none, store)

/-! ## Connect lifecycle (`src/commands/connections.rs`) — claim C8 -/

/-- `ServerConnectConfig` from `commands/connections.rs`. -/
structure ServerConnectConfig where
  transport : ServerTransport
  command : Option String
  args : List String
  env : List (String × String)
  url : Option String
  headers : List (String × String)

/-- Update one server's status in the configuration list. -/
def set_server_status (st : AppState) (id : String) (status : ServerStatus) :
    AppState :=
  { st with servers := st.servers.map (fun srv =>
      if srv.id = id then { srv with status := some status } else srv) }

/-- `mark_server_error` from `commands/connections.rs`: flip the server's
status to Error (the emitted events and tray rebuild are UI effects). -/
def mark_server_error (st : AppState) (id : String) : AppState :=
  set_server_status st id ServerStatus.Error

/-- `finalize_connection` from `commands/connections.rs`: convert the
discovered tools to `McpTool` tagged with the server's id and name, flip
status to Connected, record the connection time, cache the tools in
`AppState.connections`, and insert the live client into the Registry. -/
def finalize_connection (st : AppState) (reg : Registry) (id : String)
    (client : McpClient) (now_str : String) : AppState × Registry :=
  let server_name := ((st.servers.find? (fun s => s.id = id)).map (·.name)).getD ""
  let tools : List McpTool := client.tools.map (fun t =>
    { name := t.name, title := t.title, description := t.description,
      input_schema := t.input_schema, server_id := id,
      server_name := server_name })
  let st1 := { st with
    servers := st.servers.map (fun srv =>
      if srv.id = id then
        { srv with status := some ServerStatus.Connected,
                   last_connected := some now_str }
      else srv),
    connections := alistInsert st.connections id ⟨tools⟩ }
  (st1, alistInsert reg id client)

/-- The ambient effects `connect_server` consumes, passed explicitly: the
clock, the network outcome of a token refresh, and the outcome of the
asynchronous connection attempt (`McpClient::connect_stdio` /
`connect_http`, i.e. spawn/GET + handshake + tool discovery). -/
structure ConnectEnv where
  now : Nat
  now_str : String
  refreshResult : Except AppError OAuthTokens
  connectResult : Except AppError McpClient

/-- The full result of a `connect_server` call: the command's return value
plus the final configuration state, Registry, OAuth store, and the flag
"a connection attempt was actually started" (true exactly on the paths
that reach `connect_stdio`/`connect_http`). -/
structure ConnectServerResult where
  result : Except AppError Unit
  state : AppState
  registry : Registry
  store : OAuthStore
  attempted : Bool

/-- `connect_server` from `commands/connections.rs` (lines 14–126).
Faithfully to the source: a missing command/URL returns early with the
status left at Connecting; an `AuthRequired` failure rewrites the error
message and flips the status to Error. -/
def connect_server (st : AppState) (reg : Registry) (store : OAuthStore)
    (env : ConnectEnv) (id : String) : ConnectServerResult :=
  match st.servers.find? (fun s => s.id = id) with
  | none => ⟨.error (.ServerNotFound id), st, reg, store, false⟩
  | some server =>
    if server.status = some ServerStatus.Connected ∨
       server.status = some ServerStatus.Connecting then
      ⟨.error (.AlreadyConnected id), st, reg, store, false⟩
    else
      let st1 := set_server_status st id ServerStatus.Connecting
      let config : ServerConnectConfig :=
        { transport := server.transport, command := server.command,
          args := server.args.getD [], env := server.env.getD [],
          url := server.url, headers := server.headers.getD [] }
      let (access_token, store1) :=
        match config.transport with
        | .Http => resolve_access_token env.now store id env.refreshResult
        | .Stdio => (none, store)
      let proceed := fun (client_result : Except AppError McpClient) =>
        match client_result with
        | .ok client =>
          let (st2, reg2) := finalize_connection st1 reg id client env.now_str
          ConnectServerResult.mk (.ok ()) st2 reg2 store1 true
        | .error (.AuthRequired _) =>
          ConnectServerResult.mk
            (.error (.AuthRequired
              "Authentication required. Click Authorize to sign in."))
            (mark_server_error st1 id) reg store1 true
        | .error e =>
          ConnectServerResult.mk (.error e) (mark_server_error st1 id) reg store1 true
      match config.transport with
      | .Stdio =>
        match config.command with
        | none =>
          ⟨.error (.ConnectionFailed "No command specified"), st1, reg, store1, false⟩
        | some _ => proceed env.connectResult
      | .Http =>
        match config.url with
        | none =>
          ⟨.error (.ConnectionFailed "No URL specified"), st1, reg, store1, false⟩
        | some _ =>
          let _ := access_token
          proceed env.connectResult

/-! ## OAuth authorization flow (`src/commands/oauth.rs`, `src/mcp/oauth.rs`) — claim C7 -/

/-- `PkceChallenge` from `mcp/oauth.rs`. -/
structure PkceChallenge where
  code_verifier : String
  code_challenge : String
deriving Repr, DecidableEq

/-- Modelled from the spec: `mcp/oauth_callback.rs` is not among the
sources.  The data the local callback listener delivers per §4.5: the
authorization `code` and the returned `state` value, as read in
`commands/oauth.rs`. -/
structure CallbackData where
  code : String
  state : String
deriving Repr, DecidableEq

/-- `build_authorization_url` from `mcp/oauth.rs` (lines 187–212), as the
query string it assembles (URL parsing/percent-encoding of the Rust `url`
crate elided: the claims never inspect this string). -/
def build_authorization_url (metadata : AuthServerMetadata)
    (client_id redirect_uri : String) (pkce : PkceChallenge)
    (state : String) : String :=
  let base := metadata.authorization_endpoint ++
    "?response_type=code&client_id=" ++ client_id ++
    "&redirect_uri=" ++ redirect_uri ++
    "&code_challenge=" ++ pkce.code_challenge ++
    "&code_challenge_method=S256&state=" ++ state
  if metadata.scopes_supported.isEmpty then base
  else base ++ "&scope=" ++ String.intercalate " " metadata.scopes_supported

/-- Step 5 of `start_oauth_flow` (`commands/oauth.rs` lines 47–71):
reuse a stored client id, else dynamically register when the metadata
advertises a registration endpoint (`registerResult` is the network
outcome of `dynamic_register`), else fail. -/
def oauth_client_id_resolution (store : OAuthStore) (id : String)
    (metadata : AuthServerMetadata)
    (registerResult : Except AppError (String × Option String)) :
    Except AppError (String × Option String) :=
  match alistGet store id with
  | some os =>
    match os.client_id with
    | some cid => .ok (cid, os.client_secret)
    | none =>
      match metadata.registration_endpoint with
      | some _ => registerResult
      | none => .error (.OAuth ("Server has no registration_endpoint and no client_id is stored. " ++ "Cannot authenticate without a client_id."))
  | none =>
    match metadata.registration_endpoint with
    | some _ => registerResult
    | none => .error (.OAuth ("Server has no registration_endpoint and no client_id is stored. " ++ "Cannot authenticate without a client_id."))

/-- The ambient effects `start_oauth_flow` consumes, passed explicitly:
discovery, the callback listener's port, dynamic registration, the
generated PKCE pair and state nonce, the browser opener, the callback
delivery (`none` models a closed channel), the token exchange, and the
auto-reconnect attempt. -/
structure OAuthFlowEnv where
  metadataResult : Except AppError AuthServerMetadata
  callbackPort : Nat
  registerResult : Except AppError (String × Option String)
  pkce : PkceChallenge
  stateNonce : String
  openResult : Except String Unit
  callbackResult : Option (Except AppError CallbackData)
  exchangeResult : Except AppError OAuthTokens
  connectResult : Except AppError McpClient

/-- The full result of a `start_oauth_flow` call: the command's return
value, the final configuration state, OAuth store and Registry, and the
flag "a token exchange request was made" (true exactly on the paths that
reach `oauth::exchange_code`). -/
structure OAuthFlowResult where
  result : Except AppError Unit
  state : AppState
  store : OAuthStore
  registry : Registry
  exchangeAttempted : Bool

/-- `start_oauth_flow` from `commands/oauth.rs` (lines 10–241): read the
server's URL, discover metadata, start the callback listener, resolve a
client id, build the authorization URL, open the browser, await the
callback, verify the state nonce, exchange the code, persist the
`OAuthState`, and auto-reconnect with the fresh access token. -/
def start_oauth_flow (st : AppState) (store : OAuthStore) (reg : Registry)
    (env : OAuthFlowEnv) (id : String) : OAuthFlowResult :=
  match st.servers.find? (fun s => s.id = id) with
  | none => ⟨.error (.ServerNotFound id), st, store, reg, false⟩
  | some server =>
    if server.transport ≠ ServerTransport.Http then
      ⟨.error (.OAuth "OAuth is only supported for HTTP servers"), st, store, reg, false⟩
    else
      match server.url with
      | none => ⟨.error (.OAuth "No URL configured for server"), st, store, reg, false⟩
      | some _server_url =>
        match env.metadataResult with
        | .error e => ⟨.error e, st, store, reg, false⟩
        | .ok metadata =>
          let redirect_uri :=
            "http://127.0.0.1:" ++ toString env.callbackPort ++ "/oauth/callback"
          match oauth_client_id_resolution store id metadata env.registerResult with
          | .error e => ⟨.error e, st, store, reg, false⟩
          | .ok (client_id, client_secret) =>
            let _auth_url := build_authorization_url metadata client_id
              redirect_uri env.pkce env.stateNonce
            match env.openResult with
            | .error e =>
              ⟨.error (.OAuth ("Failed to open browser: " ++ e)), st, store, reg, false⟩
            | .ok () =>
              match env.callbackResult with
              | none =>
                ⟨.error (.OAuth "OAuth callback channel closed unexpectedly"),
                  st, store, reg, false⟩
              | some (.error e) => ⟨.error e, st, store, reg, false⟩
              | some (.ok callback_result) =>
                if callback_result.state ≠ env.stateNonce then
                  ⟨.error (.OAuth "OAuth state mismatch — possible CSRF attack"),
                    st, store, reg, false⟩
                else
                  match env.exchangeResult with
                  | .error e => ⟨.error e, st, store, reg, true⟩
                  | .ok tokens =>
                    let store1 := alistInsert store id
                      { auth_server_metadata := metadata,
                        client_id := some client_id,
                        client_secret := client_secret,
                        tokens := some tokens }
                    match st.servers.find? (fun s => s.id = id) with
                    | none => ⟨.error (.ServerNotFound id), st, store1, reg, true⟩
                    | some _ =>
                      let st1 := set_server_status st id ServerStatus.Connecting
                      match env.connectResult with
                      | .ok client =>
                        let server_name :=
                          ((st1.servers.find? (fun s => s.id = id)).map (·.name)).getD ""
                        let tools : List McpTool := client.tools.map (fun t =>
                          { name := t.name, title := t.title,
                            description := t.description,
                            input_schema := t.input_schema,
                            server_id := id, server_name := server_name })
                        let st2 := { st1 with
                          servers := st1.servers.map (fun srv =>
                            if srv.id = id then
                              { srv with status := some ServerStatus.Connected }
                            else srv),
                          connections := alistInsert st1.connections id ⟨tools⟩ }
                        ⟨.ok (), st2, store1, alistInsert reg id client, true⟩
                      | .error e =>
                        ⟨.error e, mark_server_error st1 id, store1, reg, true⟩

/-! ## Concrete fixtures used by witnesses and counterexamples -/

/-- A sample HTTP server configuration. -/
def serverW (status : Option ServerStatus) : ServerConfig :=
  { id := "srv1", name := "Server One", enabled := true,
    transport := ServerTransport.Http, command := none, args := none,
    env := none, url := some "http://example.test/mcp", headers := none,
    status := status, last_connected := none }

def stDisconnectedW : AppState := ⟨[serverW (some ServerStatus.Disconnected)], [], true⟩

def stConnectedW : AppState := ⟨[serverW (some ServerStatus.Connected)], [], true⟩

def stDiscoveryOffW : AppState := ⟨[serverW (some ServerStatus.Connected)], [], false⟩

def regEmptyW : Registry := ([] : List (String × McpClient))

/-- A JSON-RPC notification (no `id` member). -/
def notifBodyW : Json :=
  .obj [("jsonrpc", .str "2.0"), ("method", .str "notifications/initialized")]

/-- A well-formed `tools/call` request body. -/
def toolsCallBodyW : Json :=
  .obj [("jsonrpc", .str "2.0"), ("id", .num 7),
        ("method", .str "tools/call"),
        ("params", .obj [("name", .str "alpha")])]

def reqOf (body : Json) : ProxyRequest :=
  ⟨true, "srv1", none, false, some "sess-1", body⟩

def tokensW : OAuthTokens :=
  { access_token := "tok", refresh_token := none,
    expires_in := some 100, obtained_at := 0 }

def mdW : AuthServerMetadata :=
  ⟨"https://auth.test", "https://auth.test/authorize",
   "https://auth.test/token", none, []⟩

def storeW : OAuthStore :=
  [("srv1", ⟨mdW, some "client-1", none, none⟩)]

/-- An OAuth flow environment whose callback carries a wrong state value. -/
def envMismatchW : OAuthFlowEnv :=
  { metadataResult := .ok mdW, callbackPort := 4000,
    registerResult := .error (.OAuth "unused"),
    pkce := ⟨"ver", "chal"⟩, stateNonce := "nonce-1",
    openResult := .ok (),
    callbackResult := some (.ok ⟨"code-1", "evil-nonce"⟩),
    exchangeResult := .error (.OAuth "unused"),
    connectResult := .error (.OAuth "unused") }

def envConnectW : ConnectEnv :=
  ⟨0, "0", .error (.OAuth "unused"), .error (.ConnectionFailed "unused")⟩

def toolNamed (n : String) : McpTool := ⟨n, none, none, none, "srv1", "Server One"⟩

/-! # Theorems -/

/-! ## Claim C4 -/

/-- C4: `is_token_expired` returns `false` whenever `expires_in` is absent;
when `expires_in` is present it returns `true` exactly when the current
time is within 60 seconds of (or past) `obtained_at + expires_in`; a token
expiring 59 seconds from now is expired and one expiring 61 seconds from
now is valid. -/
theorem C4_is_token_expired_boundary :
    (∀ (now : Nat) (t : OAuthTokens), t.expires_in = none →
      is_token_expired now t = false)
    ∧ (∀ (now e : Nat) (t : OAuthTokens), t.expires_in = some e →
      (is_token_expired now t = true ↔ t.obtained_at + e ≤ now + 60))
    ∧ (∀ (now e : Nat) (t : OAuthTokens), t.expires_in = some e →
      t.obtained_at + e = now + 59 → is_token_expired now t = true)
    ∧ (∀ (now e : Nat) (t : OAuthTokens), t.expires_in = some e →
      t.obtained_at + e = now + 61 → is_token_expired now t = false)
    := by
  refine ⟨?_, ?_, ?_, ?_⟩
  · intro now t h
    simp [is_token_expired, h]
  · intro now e t h
    simp [is_token_expired, h]
    try omega
  · intro now e t h hb
    simp [is_token_expired, h, hb]
    try omega
  · intro now e t h hb
    simp [is_token_expired, h, hb]
    try omega

/-- Witness for C4 at a concrete token: expiry 100, obtained at 0, clock
at 41 (59 s before expiry → expired). -/
theorem C4_witness : is_token_expired 41 tokensW = true :=
  C4_is_token_expired_boundary.2.2.1 41 100 tokensW rfl rfl

/-! ## Claim C3 -/

/-- Counterexample for C3: a 401 status on the POST performed by
`send_notification` is NOT surfaced as `AuthRequired` — the call returns
`Ok ()`, only logging a warning. -/
theorem C3_counterexample :
    send_notification_outcome (.response 401) = (.ok (), true) := rfl

/-- C3 (amended): on the legacy event-stream transport a 401 observed on
the initial GET or on `send_request`'s POST is surfaced as the distinct
`AuthRequired` variant and never as a generic transport error; but
`send_notification` returns success for ANY received status — a non-2xx
status (401 included) is only logged as a warning. -/
theorem C3_amended_auth_required :
    (∀ (url : String), connect_legacy_sse_status url (.response 401)
      = .error (.AuthRequired url))
    ∧ (∀ (post_url method : String), legacy_post_status post_url method (.response 401)
      = .error (.AuthRequired post_url))
    ∧ (∀ (url u2 : String) (s : Nat), s ≠ 401 →
      connect_legacy_sse_status url (.response s) ≠ .error (.AuthRequired u2))
    ∧ (∀ (post_url method u2 : String) (s : Nat), s ≠ 401 →
      legacy_post_status post_url method (.response s) ≠ .error (.AuthRequired u2))
    ∧ (∀ (s : Nat), send_notification_outcome (.response s)
      = (.ok (), !status_is_success s)) := by
  refine ⟨?_, ?_, ?_, ?_, ?_⟩
  · intro url
    simp [connect_legacy_sse_status]
  · intro post_url method
    simp [legacy_post_status]
  · intro url u2 s hs
    by_cases h2 : status_is_success s = true <;>
      simp [connect_legacy_sse_status, hs, h2]
  · intro post_url method u2 s hs
    by_cases h2 : status_is_success s = true <;>
      simp [legacy_post_status, hs, h2]
  · intro s
    simp [send_notification_outcome]

/-- Witness for C3 at status 500 on the GET: a transport error, not
`AuthRequired`. -/
theorem C3_witness :
    connect_legacy_sse_status "http://example.test/sse" (.response 500)
      ≠ .error (.AuthRequired "http://example.test/sse") :=
  C3_amended_auth_required.2.2.1 "http://example.test/sse"
    "http://example.test/sse" 500 (by decide)

/-! ## Claim C9 -/

/-- The scan inside `extract_json_from_sse` collects exactly the payloads
the spec describes: the `data:` payloads labelled (by the most recent
`event:` line) with the empty name or "message". -/
theorem extract_scan_eq_filter (lines : List String) :
    ∀ (ce : String) (acc : List String),
    extract_scan lines ce acc = acc ++
      ((sse_labeled_payloads lines ce).filter
        (fun lp => lp.1 = "" ∨ lp.1 = "message")).map (·.2) := by
  induction lines with
  | nil => intro ce acc; simp [extract_scan, sse_labeled_payloads]
  | cons line rest ih =>
    intro ce acc
    simp only [extract_scan, sse_labeled_payloads]
    cases hev : stripPfx line "event:" with
    | some et => simp [ih]
    | none =>
      cases hd : stripPfx line "data:" with
      | some d =>
        by_cases hc : ce = "" ∨ ce = "message"
        · simp [hc, ih]
        · simp [hc, ih]
      | none => simp [ih]

/-- C9: in streamable HTTP mode, an event-stream response body is decoded
to exactly the LAST `data:` payload whose event (the most recent `event:`
name, initially unnamed) is unnamed or "message"; earlier such payloads
and payloads of differently-named events are ignored; with no such payload
the call fails with a transport error; a non-event-stream content type is
passed through verbatim. -/
theorem C9_extract_last_message_payload :
    (∀ (body : String), extract_json_from_sse body =
      match last_message_payload_spec body with
      | some p => .ok p
      | none => .error (.Transport "No JSON data found in SSE response"))
    ∧ (∀ (content_type text : String),
      containsSubstr content_type "text/event-stream" = true →
      streamable_body_to_json content_type text = extract_json_from_sse text)
    ∧ (∀ (content_type text : String),
      containsSubstr content_type "text/event-stream" = false →
      streamable_body_to_json content_type text = .ok text) := by
  refine ⟨?_, ?_, ?_⟩
  · intro body
    unfold extract_json_from_sse last_message_payload_spec
    rw [extract_scan_eq_filter]
    simp only [List.nil_append]
    cases h : (((sse_labeled_payloads (rustLines body) "").filter
        (fun lp => lp.1 = "" ∨ lp.1 = "message")).map (·.2)).getLast? <;> simp [h]
  · intro ct text h
    simp [streamable_body_to_json, h]
  · intro ct text h
    simp [streamable_body_to_json, h]

/-- Witness for C9 on a concrete two-event body: the progress event's
payload is ignored and the final message payload is returned. -/
theorem C9_witness :
    containsSubstr "text/event-stream; charset=utf-8" "text/event-stream" = true
    ∧ streamable_body_to_json "text/event-stream; charset=utf-8"
        "event: progress\ndata: p1\n\nevent: message\ndata: r1\n\ndata: r2\n"
      = extract_json_from_sse
        "event: progress\ndata: p1\n\nevent: message\ndata: r1\n\ndata: r2\n" :=
  ⟨by decide, C9_extract_last_message_payload.2.1
    "text/event-stream; charset=utf-8"
    "event: progress\ndata: p1\n\nevent: message\ndata: r1\n\ndata: r2\n"
    (by decide)⟩

/-! ## Claim C5 -/

/-- Sorting is invariant under permutation of the input. -/
theorem sortNames_perm_eq {l1 l2 : List String} (h : l1.Perm l2) :
    List.insertionSort (· ≤ ·) l1 = List.insertionSort (· ≤ ·) l2 :=
  List.eq_of_perm_of_sorted
    ((List.perm_insertionSort _ l1).trans (h.trans (List.perm_insertionSort _ l2).symm))
    (List.sorted_insertionSort _ l1) (List.sorted_insertionSort _ l2)

/-- Lookup after insert at the same key. -/
theorem alistGet_insert_self {α : Type} (m : List (String × α)) (k : String) (v : α) :
    alistGet (alistInsert m k v) k = some v := by
  induction m with
  | nil => simp [alistInsert, alistGet]
  | cons p rest ih =>
    obtain ⟨k1, w⟩ := p
    by_cases h : k1 = k <;> simp [alistInsert, alistGet, h, ih]

/-- C5: `hash_tool_names` is invariant under permutation of the tool list;
`notify_if_tools_changed` broadcasts for a server id exactly when the hash
of the sorted tool names differs from the previously stored hash (then
broadcasting exactly once); re-reporting a name-permuted tool list after
any report is a no-op — no spurious notification. -/
theorem C5_notify_iff_hash_changed :
    (∀ (hasher : List String → Nat) (t1 t2 : List McpTool),
      (t1.map (·.name)).Perm (t2.map (·.name)) →
      hash_tool_names hasher t1 = hash_tool_names hasher t2)
    ∧ (∀ (hasher : List String → Nat) (st : NotifyState) (sid : String)
        (tools : List McpTool),
      (notify_if_tools_changed hasher st sid tools).notified = st.notified
        ↔ alistGet st.hashes sid = some (hash_tool_names hasher tools))
    ∧ (∀ (hasher : List String → Nat) (st : NotifyState) (sid : String)
        (tools : List McpTool),
      alistGet st.hashes sid ≠ some (hash_tool_names hasher tools) →
      (notify_if_tools_changed hasher st sid tools).notified = st.notified ++ [sid])
    ∧ (∀ (hasher : List String → Nat) (st : NotifyState) (sid : String)
        (t1 t2 : List McpTool),
      (t1.map (·.name)).Perm (t2.map (·.name)) →
      notify_if_tools_changed hasher (notify_if_tools_changed hasher st sid t1) sid t2
        = notify_if_tools_changed hasher st sid t1) := by
  have hperm : ∀ (hasher : List String → Nat) (t1 t2 : List McpTool),
      (t1.map (·.name)).Perm (t2.map (·.name)) →
      hash_tool_names hasher t1 = hash_tool_names hasher t2 := by
    intro hasher t1 t2 h
    unfold hash_tool_names
    exact congrArg hasher (sortNames_perm_eq h)
  refine ⟨hperm, ?_, ?_, ?_⟩
  · intro hasher st sid tools
    by_cases heq : alistGet st.hashes sid = some (hash_tool_names hasher tools)
    · simp [notify_if_tools_changed, heq]
    · simp only [notify_if_tools_changed, if_neg heq]
      constructor
      · intro h
        have := congrArg List.length h
        simp at this
      · intro h
        exact absurd h heq
  · intro hasher st sid tools h
    simp [notify_if_tools_changed, h]
  · intro hasher st sid t1 t2 h
    have hh : hash_tool_names hasher t2 = hash_tool_names hasher t1 :=
      (hperm hasher t1 t2 h).symm
    by_cases heq : alistGet st.hashes sid = some (hash_tool_names hasher t1)
    · simp [notify_if_tools_changed, heq, hh]
    · simp only [notify_if_tools_changed, if_neg heq]
      simp [hh, alistGet_insert_self]

/-- Witness for C5: re-reporting the same two tools in swapped order after
a first report changes nothing. -/
theorem C5_witness :
    notify_if_tools_changed List.length
      (notify_if_tools_changed List.length ⟨[], []⟩ "srv1"
        [toolNamed "beta", toolNamed "alpha"])
      "srv1" [toolNamed "alpha", toolNamed "beta"]
    = notify_if_tools_changed List.length ⟨[], []⟩ "srv1"
        [toolNamed "beta", toolNamed "alpha"] :=
  C5_notify_iff_hash_changed.2.2.2 List.length ⟨[], []⟩ "srv1"
    [toolNamed "beta", toolNamed "alpha"] [toolNamed "alpha", toolNamed "beta"]
    (by decide)

/-! ## Claim C1 -/

/-- Counterexample for C1: with the discovery flag disabled, a POST with
no `id` member on the discovery path is answered with the HTTP 200
"Tool discovery mode is not enabled" error body, not with 202 and an empty
body — the source checks the flag before the notification check. -/
theorem C1_counterexample :
    handle_discovery_post stDiscoveryOffW regEmptyW none notifBodyW
      = (.ok (make_error_response none (-32001) "Tool discovery mode is not enabled")
          none false, false)
    ∧ (handle_discovery_post stDiscoveryOffW regEmptyW none notifBodyW).1
      ≠ GatewayResponse.accepted none := by
  refine ⟨rfl, ?_⟩
  intro h
  rw [show (handle_discovery_post stDiscoveryOffW regEmptyW none notifBodyW).1
      = GatewayResponse.ok (make_error_response none (-32001)
          "Tool discovery mode is not enabled") none false from rfl] at h
  exact nomatch h

/-- C1 (amended): a per-backend POST with valid origin and no `id` member
is answered 202 with an empty body and no tool invocation, regardless of
method or server id; the same holds on the discovery path whenever the
discovery flag is enabled; with the flag disabled the discovery path
instead returns the fixed "not enabled" error body (for every request,
notifications included) — still with no side effect. -/
theorem C1_no_id_gets_202 :
    (∀ (st : AppState) (reg : Registry) (fs : String) (req : ProxyRequest),
      req.originValid = true → (req.body.get "id").isNone = true →
      handle_mcp_post st reg fs req = (.accepted req.sessionHeader, false))
    ∧ (∀ (st : AppState) (reg : Registry) (cq : Option String) (body : Json),
      st.tool_discovery_enabled = true → (body.get "id").isNone = true →
      handle_discovery_post st reg cq body = (.accepted none, false))
    ∧ (∀ (st : AppState) (reg : Registry) (cq : Option String) (body : Json),
      st.tool_discovery_enabled = false →
      handle_discovery_post st reg cq body
        = (.ok (make_error_response (body.get "id") (-32001)
            "Tool discovery mode is not enabled") none false, false)) := by
  refine ⟨?_, ?_, ?_⟩
  · intro st reg fs req h1 h2
    simp [handle_mcp_post, h1, h2]
  · intro st reg cq body h1 h2
    simp [handle_discovery_post, h1, h2]
  · intro st reg cq body h1
    simp [handle_discovery_post, h1]

/-- Witness for C1 on a concrete notification to a connected backend. -/
theorem C1_witness :
    handle_mcp_post stConnectedW regEmptyW "fresh" (reqOf notifBodyW)
      = (.accepted (some "sess-1"), false) :=
  C1_no_id_gets_202.1 stConnectedW regEmptyW "fresh" (reqOf notifBodyW) rfl rfl

/-! ## Claim C6 -/

/-- C6: a well-formed `tools/call` POST for a backend id with no live
client in the Registry returns a JSON-RPC error response naming the
backend (its display name when the id is configured, the id itself when it
is not), and no tool invocation is performed. -/
theorem C6_tools_call_unconnected_error :
    (∀ (st : AppState) (reg : Registry) (fs : String) (req : ProxyRequest)
      (idv p : Json) (toolName : String) (srv : ServerConfig),
      req.originValid = true →
      req.body.get "id" = some idv →
      req.body.get "method" = some (.str "tools/call") →
      req.body.get "params" = some p →
      p.get "name" = some (.str toolName) →
      alistGet reg req.serverId = none →
      st.servers.find? (fun s => s.id = req.serverId) = some srv →
      handle_mcp_post st reg fs req
        = (.ok (make_error_response (some idv) (-32602)
            ("Server \x27" ++ srv.name ++ "\x27 is not connected"))
            req.sessionHeader req.acceptsSse, false))
    ∧ (∀ (st : AppState) (reg : Registry) (fs : String) (req : ProxyRequest)
      (idv : Json),
      req.originValid = true →
      req.body.get "id" = some idv →
      st.servers.find? (fun s => s.id = req.serverId) = none →
      handle_mcp_post st reg fs req
        = (.ok (make_error_response (some idv) (-32602)
            ("No server found with ID: " ++ req.serverId))
            req.sessionHeader req.acceptsSse, false)) := by
  constructor
  · intro st reg fs req idv p toolName srv h1 h2 h3 h4 h5 h6 h7
    simp [handle_mcp_post, handle_tools_call, h1, h2, h3, h4, h5, h6, h7, Json.asStr]
  · intro st reg fs req idv h1 h2 h3
    simp [handle_mcp_post, h1, h2, h3]

/-- Witness for C6: `tools/call` on the configured but unconnected
backend `srv1`. -/
theorem C6_witness :
    handle_mcp_post stDisconnectedW regEmptyW "fresh" (reqOf toolsCallBodyW)
      = (.ok (make_error_response (some (.num 7)) (-32602)
          "Server \x27Server One\x27 is not connected")
          (some "sess-1") false, false) :=
  C6_tools_call_unconnected_error.1 stDisconnectedW regEmptyW "fresh"
    (reqOf toolsCallBodyW) (.num 7) (.obj [("name", .str "alpha")]) "alpha"
    (serverW (some ServerStatus.Disconnected))
    rfl rfl rfl rfl rfl rfl rfl

/-! ## Claim C8 -/

/-- C8: a connect request on a backend whose status is Connecting or
Connected is rejected with `AlreadyConnected`, leaving the configuration
state, the Connection Registry and the OAuth store unchanged, and no
connection attempt is started. -/
theorem C8_connect_already_active_rejected :
    ∀ (st : AppState) (reg : Registry) (store : OAuthStore) (env : ConnectEnv)
      (id : String) (server : ServerConfig),
    st.servers.find? (fun s => s.id = id) = some server →
    (server.status = some ServerStatus.Connected ∨
     server.status = some ServerStatus.Connecting) →
    connect_server st reg store env id
      = ⟨.error (.AlreadyConnected id), st, reg, store, false⟩ := by
  intro st reg store env id server hfind hstatus
  rcases hstatus with h | h <;> simp [connect_server, hfind, h]

/-- Witness for C8: connecting the already-Connected backend `srv1`. -/
theorem C8_witness :
    connect_server stConnectedW regEmptyW [] envConnectW "srv1"
      = ⟨.error (.AlreadyConnected "srv1"), stConnectedW, regEmptyW, [], false⟩ :=
  C8_connect_already_active_rejected stConnectedW regEmptyW [] envConnectW
    "srv1" (serverW (some ServerStatus.Connected)) rfl (Or.inl rfl)

/-! ## Claim C7 -/

/-- C7: when the OAuth callback's `state` differs from the nonce generated
for the flow, `start_oauth_flow` rejects with the OAuth state-mismatch
error, performs no token exchange, and leaves the stored OAuth record (and
the rest of the state) unchanged. -/
theorem C7_state_mismatch_rejected :
    ∀ (st : AppState) (store : OAuthStore) (reg : Registry)
      (env : OAuthFlowEnv) (id : String) (server : ServerConfig)
      (u : String) (md : AuthServerMetadata) (cid : String)
      (csec : Option String) (cb : CallbackData),
    st.servers.find? (fun s => s.id = id) = some server →
    server.transport = ServerTransport.Http →
    server.url = some u →
    env.metadataResult = .ok md →
    oauth_client_id_resolution store id md env.registerResult = .ok (cid, csec) →
    env.openResult = .ok () →
    env.callbackResult = some (.ok cb) →
    cb.state ≠ env.stateNonce →
    start_oauth_flow st store reg env id
      = ⟨.error (.OAuth "OAuth state mismatch — possible CSRF attack"),
          st, store, reg, false⟩ := by
  intro st store reg env id server u md cid csec cb h1 h2 h3 h4 h5 h6 h7 h8
  simp [start_oauth_flow, h1, h2, h3, h4, h5, h6, h7, h8]

/-- Witness for C7: a callback carrying the wrong state nonce. -/
theorem C7_witness :
    start_oauth_flow stConnectedW storeW regEmptyW envMismatchW "srv1"
      = ⟨.error (.OAuth "OAuth state mismatch — possible CSRF attack"),
          stConnectedW, storeW, regEmptyW, false⟩ :=
  C7_state_mismatch_rejected stConnectedW storeW regEmptyW envMismatchW "srv1"
    (serverW (some ServerStatus.Connected)) "http://example.test/mcp" mdW
    "client-1" none ⟨"code-1", "evil-nonce"⟩
    rfl rfl rfl rfl rfl rfl rfl (by decide)

/-! ## Claim C2 -/

/-- One table step increases `countAll` by at most one, and only on a
`register` of that id. -/
theorem pendingStep_countAll (s : PendingState) (op : PendingOp) (id : String) :
    countAll (pendingStep s op) id ≤
      countAll s id + (if op = PendingOp.register id then 1 else 0) := by
  cases op with
  | register j =>
    by_cases hj : j ∈ s.pending
    · simp only [pendingStep, if_pos hj]
      split <;> omega
    · simp only [pendingStep, if_neg hj, countAll, resolutions, List.count_cons]
      by_cases hji : j = id <;> (simp [hji]; try omega)
  | response j =>
    by_cases hj : j ∈ s.pending
    · simp only [pendingStep, if_pos hj, countAll, resolutions, List.count_append]
      by_cases hji : j = id
      · subst hji
        have hpos : 0 < s.pending.count j := List.count_pos_iff.mpr hj
        have herase := List.count_erase_self j s.pending
        simp [List.count_cons]
        omega
      · have herase := List.count_erase_of_ne (Ne.symm hji) s.pending
        rw [show (List.count id (s.pending.erase j)) = List.count id s.pending
          from herase]
        simp [List.count_cons, Ne.symm hji]
    · simp [pendingStep, if_neg hj]
  | timeout j =>
    by_cases hj : j ∈ s.pending
    · simp only [pendingStep, if_pos hj, countAll, resolutions, List.count_append]
      by_cases hji : j = id
      · subst hji
        have hpos : 0 < s.pending.count j := List.count_pos_iff.mpr hj
        have herase := List.count_erase_self j s.pending
        simp [List.count_cons]
        omega
      · have herase := List.count_erase_of_ne (Ne.symm hji) s.pending
        rw [show (List.count id (s.pending.erase j)) = List.count id s.pending
          from herase]
        simp [List.count_cons, Ne.symm hji]
    · simp [pendingStep, if_neg hj]
  | close =>
    simp only [pendingStep, countAll, resolutions, List.count_append,
      List.count_nil]
    omega

/-- Along any trace, `countAll` is bounded by the number of registrations. -/
theorem runPending_countAll : ∀ (t : List PendingOp) (s : PendingState)
    (id : String), countAll (t.foldl pendingStep s) id ≤
      countAll s id + t.count (PendingOp.register id) := by
  intro t
  induction t with
  | nil => intro s id; simp
  | cons op rest ih =>
    intro s id
    have h1 := ih (pendingStep s op) id
    have h2 := pendingStep_countAll s op id
    have h3 : (op :: rest).count (PendingOp.register id)
        = rest.count (PendingOp.register id)
          + (if op = PendingOp.register id then 1 else 0) := by
      simp [List.count_cons]
    simp only [List.foldl_cons]
    omega

/-- C2: (a) for any interleaving of table operations in which an id is
registered at most once, that id is resolved (completed, timed out, or
failed on close) at most once in total — in particular a matching response
completes it at most once and no double-completion is possible; (b) a
response for an id not in the table is silently ignored (no state change);
(c) a response for a present id removes the entry and completes it; (d) a
timeout for a present id removes the entry and fails it, so any later
event with that id is ignored by (b); (e) stream close drains every
outstanding entry into the stream-closed failures; (f) the await timeout
is 60 seconds. -/
theorem C2_pending_exactly_once :
    (∀ (t : List PendingOp) (id : String),
      t.count (PendingOp.register id) ≤ 1 →
      resolutions (runPending t) id ≤ 1)
    ∧ (∀ (s : PendingState) (id : String), id ∉ s.pending →
      pendingStep s (.response id) = s)
    ∧ (∀ (s : PendingState) (id : String), id ∈ s.pending →
      pendingStep s (.response id)
        = { s with pending := s.pending.erase id,
                   completed := s.completed ++ [id] })
    ∧ (∀ (s : PendingState) (id : String), id ∈ s.pending →
      pendingStep s (.timeout id)
        = { s with pending := s.pending.erase id,
                   failedTimeout := s.failedTimeout ++ [id] })
    ∧ (∀ (s : PendingState),
      (pendingStep s .close).pending = []
      ∧ (pendingStep s .close).failedClosed = s.failedClosed ++ s.pending)
    ∧ legacy_sse_request_timeout_secs = 60 := by
  refine ⟨?_, ?_, ?_, ?_, ?_, rfl⟩
  · intro t id h
    have h1 := runPending_countAll t initialPending id
    have h2 : countAll initialPending id = 0 := by
      simp [countAll, initialPending, resolutions]
    have h3 : countAll (runPending t) id ≥ resolutions (runPending t) id := by
      simp [countAll]
      try omega
    unfold runPending at *
    omega
  · intro s id h
    simp [pendingStep, h]
  · intro s id h
    simp [pendingStep, h]
  · intro s id h
    simp [pendingStep, h]
  · intro s
    simp [pendingStep]

/-- Witness for C2: one registration, then the matching response, then a
duplicate stray response — resolved exactly once. -/
theorem C2_witness :
    ([PendingOp.register "1", .response "1", .response "1"] :
        List PendingOp).count (PendingOp.register "1") ≤ 1
    ∧ resolutions (runPending
        [PendingOp.register "1", .response "1", .response "1"]) "1" ≤ 1 :=
  ⟨by decide, C2_pending_exactly_once.1
    [PendingOp.register "1", .response "1", .response "1"] "1" (by decide)⟩

/-! ## Claim C10 -/

/-- Every key in the pending table is bounded by the send counter. -/
theorem idStep_bound (s : IdAllocState) (op : IdOp)
    (h : ∀ k ∈ s.pendingKeys, k ≤ s.sends) :
    ∀ k ∈ (idStep s op).pendingKeys, k ≤ (idStep s op).sends := by
  cases op with
  | send =>
    intro k hk
    simp only [idStep, List.mem_cons] at hk ⊢
    rcases hk with rfl | hk
    · exact Nat.le_trans (Nat.mod_le _ _) (by omega)
    · exact Nat.le_trans (h k hk) (by omega)
  | resolve j =>
    intro k hk
    exact h k (List.mem_of_mem_erase hk)

/-- The key bound is invariant along any trace. -/
theorem runIdOps_bound : ∀ (t : List IdOp) (s : IdAllocState),
    (∀ k ∈ s.pendingKeys, k ≤ s.sends) →
    ∀ k ∈ (t.foldl idStep s).pendingKeys, k ≤ (t.foldl idStep s).sends := by
  intro t
  induction t with
  | nil => intro s h; exact h
  | cons op rest ih =>
    intro s h
    simpa using ih (idStep s op) (idStep_bound s op h)

/-- C10: starting from `AtomicU64::new(1)`, consecutive `send_request`
calls get strictly increasing ids (1, 2, 3, …) as long as the `u64`
counter has not wrapped, so each id is used at most once; and along any
trace of sends and resolutions (without wrap) the key a send inserts into
the pending table is never already present — an in-flight request's
completion slot is never overwritten. -/
theorem C10_ids_monotone_and_fresh :
    (∀ (j k : Nat), j < k → 1 + k < U64_MOD → assigned_id j < assigned_id k)
    ∧ (∀ (t : List IdOp), (runIdOps t).sends + 1 < U64_MOD →
      assigned_id (runIdOps t).sends ∉ (runIdOps t).pendingKeys) := by
  constructor
  · intro j k hjk hk
    have hj : assigned_id j = 1 + j := Nat.mod_eq_of_lt (by omega)
    have hk2 : assigned_id k = 1 + k := Nat.mod_eq_of_lt (by omega)
    omega
  · intro t hw hmem
    have hbound := runIdOps_bound t ⟨0, []⟩ (by simp) _ hmem
    have : assigned_id (runIdOps t).sends = 1 + (runIdOps t).sends :=
      Nat.mod_eq_of_lt (by omega)
    unfold runIdOps at *
    omega

/-- Witness for C10: after two sends and one resolution the next id (3) is
fresh. -/
theorem C10_witness :
    (runIdOps [IdOp.send, .send, .resolve 1]).sends + 1 < U64_MOD
    ∧ assigned_id (runIdOps [IdOp.send, .send, .resolve 1]).sends
      ∉ (runIdOps [IdOp.send, .send, .resolve 1]).pendingKeys :=
  ⟨by decide, C10_ids_monotone_and_fresh.2 [IdOp.send, .send, .resolve 1]
    (by decide)⟩

end McpManager
